import Mathlib

/-!
Verification of the NTP log parser (log_parser.py).

The Python source is shallowly embedded below.  Python strings are modelled
as Lean `String`/`List Char`; Python floats are modelled as exact rationals
(`ℚ`), which is faithful on every value these theorems evaluate; Python ints
are `Int`.  Exceptions escaping `parse_ntp_log` are modelled with the
`crashed`/`Except.error` constructors.  Digit-grouping underscores and the
non-finite literals (inf/nan) accepted by Python's int()/float() are not
modelled (they never arise in NTP log tokens nor in any input considered
here).
-/

namespace NTPLog

/-- Whitespace test matching Python's str.isspace for the ASCII characters
that str.strip() and str.split() treat as separators. -/
def pyIsSpace (c : Char) : Bool :=
  c = ' ' ∨ c = '\t' ∨ c = '\n' ∨ c = '\r' ∨ c = '\x0b' ∨ c = '\x0c'

/-- Python line.strip(): drop whitespace from both ends. -/
def pyStrip (cs : List Char) : List Char :=
  ((cs.dropWhile pyIsSpace).reverse.dropWhile pyIsSpace).reverse

/-- Helper for pySplit: walks the characters, accumulating the current token
reversed in cur. -/
def pySplitAux : List Char → List Char → List (List Char)
  | [], cur => if cur = [] then [] else [cur.reverse]
  | c :: rest, cur =>
    if pyIsSpace c then
      if cur = [] then pySplitAux rest [] else cur.reverse :: pySplitAux rest []
    else
      pySplitAux rest (c :: cur)

/-- Python line.split() with no argument: split on runs of whitespace,
dropping empty pieces. -/
def pySplit (cs : List Char) : List (List Char) :=
  pySplitAux cs []

/-- Value of a list of decimal digit characters. -/
def digitsToNat (ds : List Char) : Nat :=
  ds.foldl (fun a c => 10 * a + (c.toNat - '0'.toNat)) 0

/-- Python int(s) on a whitespace-free token: optional sign then one or more
decimal digits. -/
def pyParseInt (cs : List Char) : Option Int :=
  match cs with
  | '+' :: ds => if ds ≠ [] ∧ ds.all (·.isDigit) then some (digitsToNat ds : Int) else none
  | '-' :: ds => if ds ≠ [] ∧ ds.all (·.isDigit) then some (-(digitsToNat ds : Int)) else none
  | ds => if ds ≠ [] ∧ ds.all (·.isDigit) then some (digitsToNat ds : Int) else none

/-- Lift pyParseInt over an optional token; a missing token models the
IndexError raised by parts[i], which the source catches together with
ValueError. -/
def pyParseIntOpt (o : Option (List Char)) : Option Int :=
  o.bind pyParseInt

/-- Exponent part of a Python float literal: optional sign then digits. -/
def pyParseExp (cs : List Char) : Option Int :=
  match cs with
  | '+' :: ds => if ds ≠ [] ∧ ds.all (·.isDigit) then some (digitsToNat ds : Int) else none
  | '-' :: ds => if ds ≠ [] ∧ ds.all (·.isDigit) then some (-(digitsToNat ds : Int)) else none
  | ds => if ds ≠ [] ∧ ds.all (·.isDigit) then some (digitsToNat ds : Int) else none

/-- Python float(s) on a whitespace-free finite decimal literal: optional
sign, digits with optional fractional part (at least one digit overall),
optional exponent.  The value is exact as a rational. -/
def pyParseFloat (cs : List Char) : Option ℚ :=
  let sgn : ℚ × List Char :=
    match cs with
    | '+' :: r => (1, r)
    | '-' :: r => (-1, r)
    | r => (1, r)
  let ip := sgn.2.takeWhile (·.isDigit)
  let rest1 := sgn.2.dropWhile (·.isDigit)
  let fpRest : List Char × List Char :=
    match rest1 with
    | '.' :: r => (r.takeWhile (·.isDigit), r.dropWhile (·.isDigit))
    | r => ([], r)
  let fp := fpRest.1
  if ip = [] ∧ fp = [] then none
  else
    let mant : ℚ := (digitsToNat ip : ℚ) + (digitsToNat fp : ℚ) / (10 : ℚ) ^ fp.length
    match fpRest.2 with
    | [] => some (sgn.1 * mant)
    | 'e' :: r => (pyParseExp r).map (fun e => sgn.1 * mant * (10 : ℚ) ^ e)
    | 'E' :: r => (pyParseExp r).map (fun e => sgn.1 * mant * (10 : ℚ) ^ e)
    | _ => none

/-- Lift pyParseFloat over an optional token (missing token = IndexError). -/
def pyParseFloatOpt (o : Option (List Char)) : Option ℚ :=
  o.bind pyParseFloat

/-- Naive date-time as produced by datetime.strptime with format
%Y-%m-%d %H:%M:%S %Z (the zone name is validated but not stored, as in the
source, whose strftime output ignores it). -/
structure Timestamp where
  year : Nat
  month : Nat
  day : Nat
  hour : Nat
  minute : Nat
  second : Nat
deriving DecidableEq, Repr

/-- Numeric value of a digit character. -/
def digitVal (c : Char) : Nat := c.toNat - '0'.toNat

/-- Exactly four digits (strptime's %Y). -/
def parse4 : List Char → Option (Nat × List Char)
  | a :: b :: c :: d :: rest =>
    if a.isDigit ∧ b.isDigit ∧ c.isDigit ∧ d.isDigit then
      some (1000 * digitVal a + 100 * digitVal b + 10 * digitVal c + digitVal d, rest)
    else none
  | _ => none

/-- strptime's %m, whose regex alternation is 1[0-2]|0[1-9]|[1-9].  Because
every alternative consumes only digits and the character after the month in
the format is a non-digit, committed choice here agrees with the regex
engine's backtracking. -/
def parseMonth : List Char → Option (Nat × List Char)
  | '1' :: c :: rest =>
    if '0' ≤ c ∧ c ≤ '2' then some (10 + digitVal c, rest) else some (1, c :: rest)
  | '0' :: c :: rest =>
    if '1' ≤ c ∧ c ≤ '9' then some (digitVal c, rest) else none
  | c :: rest => if '1' ≤ c ∧ c ≤ '9' then some (digitVal c, rest) else none
  | [] => none

/-- strptime's %d, regex 3[01]|[12]\d|0[1-9]|[1-9] (same committed-choice
argument as parseMonth). -/
def parseDay : List Char → Option (Nat × List Char)
  | '3' :: c :: rest =>
    if c = '0' ∨ c = '1' then some (30 + digitVal c, rest) else some (3, c :: rest)
  | '1' :: c :: rest =>
    if c.isDigit then some (10 + digitVal c, rest) else some (1, c :: rest)
  | '2' :: c :: rest =>
    if c.isDigit then some (20 + digitVal c, rest) else some (2, c :: rest)
  | '0' :: c :: rest =>
    if '1' ≤ c ∧ c ≤ '9' then some (digitVal c, rest) else none
  | c :: rest => if '1' ≤ c ∧ c ≤ '9' then some (digitVal c, rest) else none
  | [] => none

/-- strptime's %H, regex 2[0-3]|[0-1]\d|\d. -/
def parseHour : List Char → Option (Nat × List Char)
  | '2' :: c :: rest =>
    if '0' ≤ c ∧ c ≤ '3' then some (20 + digitVal c, rest) else some (2, c :: rest)
  | '0' :: c :: rest =>
    if c.isDigit then some (digitVal c, rest) else some (0, c :: rest)
  | '1' :: c :: rest =>
    if c.isDigit then some (10 + digitVal c, rest) else some (1, c :: rest)
  | c :: rest => if c.isDigit then some (digitVal c, rest) else none
  | [] => none

/-- strptime's %M, regex [0-5]\d|\d.  Also used for %S: the extra leap-second
values 60 and 61 allowed by the %S regex are rejected afterwards by the
datetime constructor, so they yield None either way. -/
def parseMinute : List Char → Option (Nat × List Char)
  | c :: d :: rest =>
    if ('0' ≤ c ∧ c ≤ '5') ∧ d.isDigit then some (10 * digitVal c + digitVal d, rest)
    else if c.isDigit then some (digitVal c, d :: rest)
    else none
  | [c] => if c.isDigit then some (digitVal c, []) else none
  | [] => none

/-- One literal character of the strptime format. -/
def expectChar (c : Char) : List Char → Option (List Char)
  | d :: rest => if d = c then some rest else none
  | [] => none

/-- Whitespace in a strptime format matches one or more whitespace
characters. -/
def skipSpaces1 : List Char → Option (List Char)
  | d :: rest => if pyIsSpace d then some (rest.dropWhile pyIsSpace) else none
  | [] => none

/-- strptime's %Z, modelled portably: the environment-independent zone names
it always accepts, case-insensitively, with nothing allowed after them
(strptime rejects unconverted trailing data).  Locale-dependent local zone
names are not modelled. -/
def zoneOk (cs : List Char) : Bool :=
  cs.map Char.toLower = "utc".data ∨ cs.map Char.toLower = "gmt".data

/-- Leap-year rule used by datetime's calendar validation. -/
def isLeap (y : Nat) : Bool :=
  (y % 4 = 0 ∧ y % 100 ≠ 0) ∨ y % 400 = 0

/-- Days in a month, as validated by the datetime constructor. -/
def daysInMonth (y m : Nat) : Nat :=
  if m = 2 then (if isLeap y then 29 else 28)
  else if m = 4 ∨ m = 6 ∨ m = 9 ∨ m = 11 then 30
  else 31

/-- datetime.strptime(s, "%Y-%m-%d %H:%M:%S %Z"): field regexes, literal
separators, full-input match, then datetime's range/calendar validation
(year at least 1, day within the month, second at most 59). -/
def parseTimestamp (cs : List Char) : Option Timestamp := do
  let (y, r1) ← parse4 cs
  let r2 ← expectChar '-' r1
  let (mo, r3) ← parseMonth r2
  let r4 ← expectChar '-' r3
  let (d, r5) ← parseDay r4
  let r6 ← skipSpaces1 r5
  let (h, r7) ← parseHour r6
  let r8 ← expectChar ':' r7
  let (mi, r9) ← parseMinute r8
  let r10 ← expectChar ':' r9
  let (s, r11) ← parseMinute r10
  let r12 ← skipSpaces1 r11
  if zoneOk r12 ∧ 1 ≤ y ∧ d ≤ daysInMonth y mo ∧ s ≤ 59 then
    some ⟨y, mo, d, h, mi, s⟩
  else none

/-- Zero-pad a number to two digits. -/
def pad2 (n : Nat) : String :=
  if n < 10 then "0" ++ toString n else toString n

/-- Zero-pad a number to four digits. -/
def pad4 (n : Nat) : String :=
  if n < 10 then "000" ++ toString n
  else if n < 100 then "00" ++ toString n
  else if n < 1000 then "0" ++ toString n
  else toString n

/-- current_timestamp.strftime("%Y-%m-%d %H:%M:%S"). -/
def Timestamp.strftime (t : Timestamp) : String :=
  pad4 t.year ++ "-" ++ pad2 t.month ++ "-" ++ pad2 t.day ++ " " ++
    pad2 t.hour ++ ":" ++ pad2 t.minute ++ ":" ++ pad2 t.second

/-- Lazy-group scan for the regex "=== (.+?) ===": acc holds the group so
far; the group grows one character at a time (never across a newline, which
"." does not match) and ends at the first position where the literal " ==="
follows.  Everything after that closing fence is ignored, because re.match
anchors only at the start of the string. -/
def grabInterior : List Char → List Char → Option (List Char)
  | _, [] => none
  | acc, c :: rest =>
    if c = '\n' then none
    else if [' ', '=', '=', '='].isPrefixOf rest then some (acc ++ [c])
    else grabInterior (acc ++ [c]) rest

/-- re.match(r"=== (.+?) ===", line): anchored at the start, lazily matched
group, no end anchor. -/
def tsMatch : List Char → Option (List Char)
  | '=' :: '=' :: '=' :: ' ' :: rest => grabInterior [] rest
  | _ => none

/-- One parsed data row, with the fields of the dict appended by the
source (timestamp is the formatted string, timestamp_obj the datetime). -/
structure Record where
  timestamp : String
  timestamp_obj : Timestamp
  status : String
  remote : String
  refid : String
  stratum : Int
  type : String
  when_seconds : Int
  poll : Int
  reach : Int
  delay_ms : ℚ
  offset_ms : ℚ
  jitter_ms : ℚ
deriving DecidableEq, Repr

/-- Status-prefix characters recognized by the source. -/
def STATUS_CHARS : List Char := ['*', '+', '-', ' ', 'x', 'o', '#']

/-- Sentinel reference ids that cause a line to be skipped. -/
def SENTINELS : List (List Char) := [".STEP.".data, ".INIT.".data, ".RATE.".data]

/-- Status extraction from the first token: if the token is non-empty and its
first character is a status symbol, that character becomes the status and is
stripped from the remote; otherwise the status is empty. -/
def stripStatus (tok : List Char) : List Char × List Char :=
  match tok with
  | c :: rest => if c ∈ STATUS_CHARS then ([c], rest) else ([], tok)
  | [] => ([], [])

/-- Conversion of the "when" field.  A literal "-" is 0.  A token containing
"m" has all "m"s removed and the rest parsed as minutes; failure of that
int() is a ValueError that escapes to the outer handler (None here).
Likewise for "h" with hours.  Otherwise the token is parsed as seconds, with
an inner try/except turning a failure into 0. -/
def whenNormalize (when : List Char) : Option Int :=
  if when ≠ "-".data then
    if 'm' ∈ when then
      (pyParseInt (when.filter (· ≠ 'm'))).map (· * 60)
    else if 'h' ∈ when then
      (pyParseInt (when.filter (· ≠ 'h'))).map (· * 3600)
    else
      match pyParseInt when with
      | some n => some n
      | none => some 0
  else some 0

/-- Outcome of the per-line decode section of the loop body (lines 61-115 of
the source). -/
inductive DecodeResult where
  | ok (r : Record)
  | sentinel
  | failure
  | crash (msg : String)
deriving DecidableEq, Repr

/-- Decode of a tokenized candidate line.  Status stripping and the sentinel
check happen outside the try block; the numeric coercions and the when
conversion happen inside it, any ValueError/IndexError collapsing to
failure; the dict append formats current_timestamp, which crashes with an
uncaught AttributeError when no timestamp header has been seen yet. -/
def decodeParts (parts : List (List Char)) (ct : Option Timestamp) : DecodeResult :=
  match parts[0]?, parts[1]? with
  | some tok0, some tok1 =>
    let sr := stripStatus tok0
    if tok1 ∈ SENTINELS then .sentinel
    else
      match pyParseIntOpt (parts[2]?), parts[3]?, parts[4]?,
            pyParseIntOpt (parts[5]?), pyParseIntOpt (parts[6]?),
            pyParseFloatOpt (parts[7]?), pyParseFloatOpt (parts[8]?),
            pyParseFloatOpt (parts[9]?) with
      | some st, some tok3, some tok4, some poll, some reach,
        some delay, some offs, some jit =>
        match whenNormalize tok4 with
        | some ws =>
          match ct with
          | some ts =>
            .ok { timestamp := ts.strftime
                  timestamp_obj := ts
                  status := ⟨sr.1⟩
                  remote := ⟨sr.2⟩
                  refid := ⟨tok1⟩
                  stratum := st
                  type := ⟨tok3⟩
                  when_seconds := ws
                  poll := poll
                  reach := reach
                  delay_ms := delay
                  offset_ms := offs
                  jitter_ms := jit }
          | none => .crash "AttributeError: NoneType object has no attribute strftime"
        | none => .failure
      | _, _, _, _, _, _, _, _ => .failure
  | _, _ => .failure

/-- Loop state of parse_ntp_log: running carries the nullable
current_timestamp and the accumulated rows; stopped is the state after the
break on a bad timestamp header; crashed is an exception escaping the
function. -/
inductive PState where
  | running (ct : Option Timestamp) (recs : List Record)
  | stopped (recs : List Record)
  | crashed (msg : String)
deriving DecidableEq, Repr

/-- One iteration of the loop body on a raw input line.  A line matching the
timestamp regex with parseable interior updates current_timestamp and then
falls through to the skip test, which it always satisfies (it starts with
"==="), so nothing else happens to it; with unparseable interior the loop
breaks.  Otherwise the skip rules, the token-count gate and the decode run
in source order. -/
def step (st : PState) (raw : String) : PState :=
  match st with
  | .stopped recs => .stopped recs
  | .crashed m => .crashed m
  | .running ct recs =>
    let line := pyStrip raw.data
    match tsMatch line with
    | some interior =>
      match parseTimestamp interior with
      | some ts => .running (some ts) recs
      | none => .stopped recs
    | none =>
      if line = [] ∨ "remote".data.isPrefixOf line ∨ "===".data.isPrefixOf line ∨
          "=".data.isPrefixOf line then
        .running ct recs
      else
        let parts := pySplit line
        if parts.length < 9 then .running ct recs
        else
          match decodeParts parts ct with
          | .ok r => .running ct (recs ++ [r])
          | .sentinel => .running ct recs
          | .failure => .running ct recs
          | .crash m => .crashed m

/-- Fold of the loop body over all input lines from the initial state. -/
def runParser (lines : List String) : PState :=
  lines.foldl step (PState.running none [])

/-- parse_ntp_log as observed by its caller: the list of rows on normal
completion or early break, or the escaped exception. -/
def parse_ntp_log (lines : List String) : Except String (List Record) :=
  match runParser lines with
  | .running _ recs => .ok recs
  | .stopped recs => .ok recs
  | .crashed m => .error m

/-- Rows accumulated in a loop state (an escaped exception returns none to
the caller). -/
def recsOf : PState → List Record
  | .running _ recs => recs
  | .stopped recs => recs
  | .crashed _ => []

/-- First token of a data line from which the source's status stripping
yields a non-empty remote not starting with a status symbol: the token is
not a lone status character, and does not start with two status
characters. -/
def tokenSafe : List Char → Bool
  | [] => false
  | [c] => !(c ∈ STATUS_CHARS : Bool)
  | c1 :: c2 :: _ => !(c1 ∈ STATUS_CHARS : Bool) || !(c2 ∈ STATUS_CHARS : Bool)

/-- SERVER_NAMES mapping from the source (dict modelled as an association
list in insertion order). -/
def SERVER_NAMES : List (String × String) :=
  [("140.203.204.77", "Ireland"),
   ("ntp0.cam.ac.uk", "UK"),
   ("ptbtime1.ptb.de", "Germany"),
   ("time-a-g.nist.g", "US"),
   ("ntp1.tuxfamily.org", "France"),
   ("ns1.anu.edu.au", "Australia"),
   ("ntp-b3.nict.go.", "Japan")]

/-- SERVER_NAMES.get(server, server). -/
def serverNamesGet (s : String) : String :=
  match SERVER_NAMES.find? (fun p => p.1 == s) with
  | some p => p.2
  | none => s

/-- Python min() over a list of floats; the source only applies it to
non-empty per-server lists (min() on an empty list would raise). -/
def pyMin (xs : List ℚ) : ℚ :=
  match xs with
  | [] => 0
  | h :: t => t.foldl min h

/-- Python max() over a list of floats (non-empty in the source). -/
def pyMax (xs : List ℚ) : ℚ :=
  match xs with
  | [] => 0
  | h :: t => t.foldl max h

/-- statistics.mean: sum divided by length (floats modelled exactly as
rationals). -/
def pyMean (xs : List ℚ) : ℚ :=
  xs.sum / (xs.length : ℚ)

/-- Sample variance, the square of statistics.stdev: sum of squared
deviations from the mean divided by n-1. -/
def sampleVarianceQ (xs : List ℚ) : ℚ :=
  ((xs.map (fun x => (x - pyMean xs) ^ 2)).sum) / ((xs.length : ℚ) - 1)

/-- Square of the stdev entry of the source: statistics.stdev(xs) if
len(xs) > 1 else 0.  The square root itself is irrational in general, so the
embedding carries the exact square; the theorems express the source's
StdDev value as Real.sqrt of this field. -/
def stdevSqQ (xs : List ℚ) : ℚ :=
  if 1 < xs.length then sampleVarianceQ xs else 0

/-- One row of the statistics list built by calculate_statistics.  The
*_StdDevSq fields hold the exact square of the source's *_StdDev float
entries. -/
structure StatsRow where
  Server : String
  IP_Hostname : String
  Data_Points : Nat
  Delay_Min : ℚ
  Delay_Max : ℚ
  Delay_Mean : ℚ
  Delay_StdDevSq : ℚ
  Offset_Min : ℚ
  Offset_Max : ℚ
  Offset_Mean : ℚ
  Offset_StdDevSq : ℚ
  Jitter_Min : ℚ
  Jitter_Max : ℚ
  Jitter_Mean : ℚ
  Jitter_StdDevSq : ℚ
deriving DecidableEq, Repr

/-- Per-server delay list: servers_data[server]["delay"], built by appending
in row order. -/
def delaysOf (rows : List Record) (s : String) : List ℚ :=
  (rows.filter (fun r => r.remote == s)).map (·.delay_ms)

/-- Per-server offset list. -/
def offsetsOf (rows : List Record) (s : String) : List ℚ :=
  (rows.filter (fun r => r.remote == s)).map (·.offset_ms)

/-- Per-server jitter list. -/
def jittersOf (rows : List Record) (s : String) : List ℚ :=
  (rows.filter (fun r => r.remote == s)).map (·.jitter_ms)

/-- Helper for uniqueKeys: fold preserving first-occurrence order, as a
Python dict's key insertion order does. -/
def uniqueAux : List String → List String → List String
  | [], acc => acc
  | s :: t, acc => uniqueAux t (if s ∈ acc then acc else acc ++ [s])

/-- Keys of the defaultdict servers_data: the distinct values in
first-occurrence order. -/
def uniqueKeys (l : List String) : List String :=
  uniqueAux l []

/-- servers_data.keys() for a list of rows. -/
def serverKeys (rows : List Record) : List String :=
  uniqueKeys (rows.map (·.remote))

/-- sorted() over strings: Python compares strings lexicographically by code
point, as Lean's order on String does. -/
def sortStrings (l : List String) : List String :=
  List.insertionSort (· ≤ ·) l

/-- The stats dict appended for one server. -/
def mkStatsRow (rows : List Record) (s : String) : StatsRow :=
  { Server := serverNamesGet s
    IP_Hostname := s
    Data_Points := (delaysOf rows s).length
    Delay_Min := pyMin (delaysOf rows s)
    Delay_Max := pyMax (delaysOf rows s)
    Delay_Mean := pyMean (delaysOf rows s)
    Delay_StdDevSq := stdevSqQ (delaysOf rows s)
    Offset_Min := pyMin (offsetsOf rows s)
    Offset_Max := pyMax (offsetsOf rows s)
    Offset_Mean := pyMean (offsetsOf rows s)
    Offset_StdDevSq := stdevSqQ (offsetsOf rows s)
    Jitter_Min := pyMin (jittersOf rows s)
    Jitter_Max := pyMax (jittersOf rows s)
    Jitter_Mean := pyMean (jittersOf rows s)
    Jitter_StdDevSq := stdevSqQ (jittersOf rows s) }

/-- float.__format__ with the fixed-point specs appearing in the source: a
spec of the shape "." digits "f" (at least one digit, digits only) formats
successfully; anything else raises ValueError.  This is enough to
distinguish ".4f" from the malformed ".¢4f" on source line 274. -/
def pyFloatFormatOk (spec : List Char) : Bool :=
  match spec with
  | '.' :: rest =>
    match rest.reverse with
    | 'f' :: ds => ds ≠ [] ∧ ds.all (·.isDigit)
    | _ => false
  | _ => false

/-- Format specs of the per-server print block, in evaluation order: delay
Min/Max/Mean/StdDev (source lines 266-269), then jitter Min/Max/Mean (lines
271-273) and the jitter StdDev print (line 274), whose spec contains the
stray cent sign: ".¢4f". -/
def STAT_PRINT_SPECS : List String :=
  [".4f", ".4f", ".4f", ".4f", ".4f", ".4f", ".4f", ".¢4f"]

/-- Runs the per-server print block: an invalid format spec raises
ValueError (the printed text itself goes to stdout and is not modelled; an
invalid spec raises for every float value, so no value is needed). -/
def statPrintsRun : Except String Unit :=
  if STAT_PRINT_SPECS.all (fun s => pyFloatFormatOk s.data) then .ok ()
  else .error "ValueError: Invalid format specifier"

/-- The per-server loop of calculate_statistics: each iteration computes the
three stats dicts (collected in mkStatsRow), runs the print block, and only
then appends the row — so the ValueError raised by the malformed jitter
StdDev spec escapes before the first append. -/
def calcStatsLoop (rows : List Record) : List String → List StatsRow →
    Except String (List StatsRow)
  | [], stats => .ok stats
  | s :: keys, stats =>
    let row := mkStatsRow rows s
    match statPrintsRun with
    | .ok _ => calcStatsLoop rows keys (stats ++ [row])
    | .error m => .error m

/-- calculate_statistics as observed by its caller: one stats row per
distinct server in sorted key order on normal completion, or the exception
escaping the print block. -/
def calculate_statistics (rows : List Record) : Except String (List StatsRow) :=
  calcStatsLoop rows (sortStrings (serverKeys rows)) []

/-- Concrete row used to instantiate the two-peer statistics scenario. -/
def demoRow (s : String) (v : ℚ) : Record :=
  { timestamp := "2024-06-01 12:00:00"
    timestamp_obj := ⟨2024, 6, 1, 12, 0, 0⟩
    status := ""
    remote := s
    refid := "1.2.3.4"
    stratum := 2
    type := "u"
    when_seconds := 5
    poll := 64
    reach := 377
    delay_ms := v
    offset_ms := v
    jitter_ms := v }

/-- Two peers with three observations of delay 10, 20, 30 each. -/
def demoRows : List Record :=
  [demoRow "b" 10, demoRow "b" 20, demoRow "b" 30,
   demoRow "a" 10, demoRow "a" 20, demoRow "a" 30]

/-- A well-formed timestamp header line. -/
def hdrLine : String := "=== 2024-06-01 12:00:00 UTC ==="

/-- The timestamp hdrLine parses to. -/
def ts0 : Timestamp := ⟨2024, 6, 1, 12, 0, 0⟩

/-- A timestamp header line whose interior does not parse. -/
def badHdrLine : String := "=== not a timestamp ==="

/-- A header-like line with trailing text after the closing fence. -/
def trailingHdrLine : String := "=== 2024-06-01 12:00:00 UTC === trailing"

/-- A fully well-formed ten-token data line. -/
def goodLine : String := "*140.203.204.77 1.2.3.4 2 u 5 64 377 12.345 -0.067 1.234"

/-- The row goodLine decodes to after hdrLine. -/
def goodRecord : Record :=
  { timestamp := "2024-06-01 12:00:00"
    timestamp_obj := ts0
    status := "*"
    remote := "140.203.204.77"
    refid := "1.2.3.4"
    stratum := 2
    type := "u"
    when_seconds := 5
    poll := 64
    reach := 377
    delay_ms := 2469 / 200
    offset_ms := -67 / 1000
    jitter_ms := 617 / 500 }

/-- A ten-token line, otherwise well formed, whose reference id is the
sentinel .STEP. -/
def sentinelLine : String := "*140.203.204.77 .STEP. 2 u 5 64 377 1.0 2.0 3.0"

/-- A ten-token line whose duration token abcm contains a unit letter with a
non-numeric remainder. -/
def abcmLine : String := "*140.203.204.77 1.2.3.4 2 u abcm 64 377 1.0 2.0 3.0"

/-- A ten-token line whose first token is a lone status symbol. -/
def starLine : String := "* 1.2.3.4 2 u 5 64 377 1.0 2.0 3.0"

/-- A line with exactly nine whitespace tokens. -/
def nineTokLine : String := "a b 1 u 5 6 7 1.0 2.0"

/-- A fence-wrapped line whose interior is the sentinel .STEP. -/
def stepFenceLine : String := "=== .STEP. ==="

/-- A ten-token line whose duration token abc has no unit letter and is not
numeric. -/
def abcLine : String := "*140.203.204.77 1.2.3.4 2 u abc 64 377 1.0 2.0 3.0"

/-- The row starLine decodes to after hdrLine: its remote is empty. -/
def starRecord : Record :=
  { timestamp := "2024-06-01 12:00:00"
    timestamp_obj := ts0
    status := "*"
    remote := ""
    refid := "1.2.3.4"
    stratum := 2
    type := "u"
    when_seconds := 5
    poll := 64
    reach := 377
    delay_ms := 1
    offset_ms := 2
    jitter_ms := 3 }

/-- The row abcLine decodes to after hdrLine: when_seconds fell back to 0. -/
def abcRecord : Record :=
  { timestamp := "2024-06-01 12:00:00"
    timestamp_obj := ts0
    status := "*"
    remote := "140.203.204.77"
    refid := "1.2.3.4"
    stratum := 2
    type := "u"
    when_seconds := 0
    poll := 64
    reach := 377
    delay_ms := 1
    offset_ms := 2
    jitter_ms := 3 }

end NTPLog

namespace NTPLog

/-- Once the loop has broken, later lines are never processed. -/
theorem foldl_step_stopped (l : List String) (recs : List Record) :
    List.foldl step (PState.stopped recs) l = PState.stopped recs := by
  induction l with
  | nil => rfl
  | cons a t ih => simpa [step] using ih

/-- Once an exception has escaped, later lines are never processed. -/
theorem foldl_step_crashed (l : List String) (m : String) :
    List.foldl step (PState.crashed m) l = PState.crashed m := by
  induction l with
  | nil => rfl
  | cons a t ih => simpa [step] using ih

/-- Tokens produced by pySplitAux are non-empty and contain no whitespace,
given that the pending token does not. -/
theorem pySplitAux_good (cs : List Char) :
    ∀ cur, (∀ c ∈ cur, pyIsSpace c = false) →
      ∀ tok ∈ pySplitAux cs cur, tok ≠ [] ∧ ∀ c ∈ tok, pyIsSpace c = false := by
  induction cs with
  | nil =>
    intro cur hcur tok htok
    by_cases h : cur = []
    · simp [pySplitAux, h] at htok
    · simp [pySplitAux, h] at htok
      subst htok
      refine ⟨by simpa using h, ?_⟩
      intro c hc
      exact hcur c (List.mem_reverse.mp hc)
  | cons a t ih =>
    intro cur hcur tok htok
    by_cases ha : pyIsSpace a
    · by_cases h : cur = []
      · simp [pySplitAux, ha, h] at htok
        exact ih [] (by simp) tok htok
      · simp [pySplitAux, ha, h] at htok
        rcases htok with htok | htok
        · subst htok
          refine ⟨by simpa using h, ?_⟩
          intro c hc
          exact hcur c (List.mem_reverse.mp hc)
        · exact ih [] (by simp) tok htok
    · simp [pySplitAux, ha] at htok
      refine ih (a :: cur) ?_ tok htok
      intro c hc
      rcases List.mem_cons.mp hc with rfl | hc
      · simpa using ha
      · exact hcur c hc

/-- Tokens of pySplit are non-empty and whitespace-free. -/
theorem pySplit_good (cs : List Char) (tok : List Char) (h : tok ∈ pySplit cs) :
    tok ≠ [] ∧ ∀ c ∈ tok, pyIsSpace c = false :=
  pySplitAux_good cs [] (by simp) tok h

/-- Inversion of a successful decode: the first two tokens exist, the second
is not a sentinel, a timestamp context was present, and the status, remote
and refid fields are derived as in the source. -/
theorem decodeParts_ok (parts : List (List Char)) (ct : Option Timestamp) (r : Record)
    (h : decodeParts parts ct = .ok r) :
    ∃ tok0 tok1 ts, parts[0]? = some tok0 ∧ parts[1]? = some tok1 ∧
      tok1 ∉ SENTINELS ∧ ct = some ts ∧
      r.status = ⟨(stripStatus tok0).1⟩ ∧ r.remote = ⟨(stripStatus tok0).2⟩ ∧
      r.refid = ⟨tok1⟩ := by
  unfold decodeParts at h
  split at h
  · next tok0 tok1 hg0 hg1 =>
    split at h
    · simp at h
    · next hsent =>
      split at h
      · next st tok3 tok4 poll reach delay offs jit h2 h3 h4 h5 h6 h7 h8 h9 =>
        split at h
        · next ws hws =>
          split at h
          · next ts =>
            injection h with h
            subst h
            exact ⟨tok0, tok1, ts, hg0, hg1, hsent, rfl, rfl, rfl, rfl⟩
          · simp at h
        · simp at h
      · simp at h
  · simp at h

/-- Every row present after one loop iteration was either already present or
was produced by the decode of that line's whitespace tokenization. -/
theorem step_records_sub (st : PState) (raw : String) (r : Record)
    (hr : r ∈ recsOf (step st raw)) :
    r ∈ recsOf st ∨ ∃ ct, decodeParts (pySplit (pyStrip raw.data)) ct = .ok r := by
  cases st with
  | stopped recs => exact Or.inl (by simp only [step] at hr; exact hr)
  | crashed m => exact Or.inl (by simp only [step] at hr; exact hr)
  | running ct recs =>
    simp only [step] at hr
    split at hr
    · split at hr
      · exact Or.inl (by simpa [recsOf] using hr)
      · exact Or.inl (by simpa [recsOf] using hr)
    · split at hr
      · exact Or.inl (by simpa [recsOf] using hr)
      · split at hr
        · exact Or.inl (by simpa [recsOf] using hr)
        · split at hr
          · next r0 hdec =>
            simp only [recsOf, List.mem_append, List.mem_singleton] at hr
            rcases hr with hr | rfl
            · exact Or.inl hr
            · exact Or.inr ⟨ct, hdec⟩
          · exact Or.inl (by simpa [recsOf] using hr)
          · exact Or.inl (by simpa [recsOf] using hr)
          · simp [recsOf] at hr

/-- Every row present after folding the loop over a list of lines was either
present initially or decoded from one of the lines. -/
theorem foldl_records_sub (lines : List String) (st : PState) (r : Record)
    (hr : r ∈ recsOf (List.foldl step st lines)) :
    r ∈ recsOf st ∨
      ∃ raw ct, decodeParts (pySplit (pyStrip (String.data raw))) ct = .ok r := by
  induction lines generalizing st with
  | nil => exact Or.inl (by simp at hr; exact hr)
  | cons a t ih =>
    rcases ih (step st a) (by rw [List.foldl_cons] at hr; exact hr) with h | h
    · rcases step_records_sub st a r h with h2 | ⟨ct, h2⟩
      · exact Or.inl h2
      · exact Or.inr ⟨a, ct, h2⟩
    · exact Or.inr h

/-- Every row returned by parse_ntp_log was decoded from the whitespace
tokenization of some stripped input line. -/
theorem parse_ok_records (lines : List String) (recs : List Record) (r : Record)
    (hp : parse_ntp_log lines = .ok recs) (hr : r ∈ recs) :
    ∃ raw ct, decodeParts (pySplit (pyStrip (String.data raw))) ct = .ok r := by
  unfold parse_ntp_log at hp
  have hrec : r ∈ recsOf (runParser lines) := by
    split at hp
    · next recs2 heq => injection hp with hp; subst hp; simpa [recsOf, heq] using hr
    · next recs2 heq => injection hp with hp; subst hp; simpa [recsOf, heq] using hr
    · simp at hp
  rcases foldl_records_sub lines _ r (by simpa [runParser] using hrec) with h | h
  · simp [recsOf] at h
  · exact h

/-- Every row returned by parse_ntp_log has a status that is not the space
character and a reference id that is not a sentinel. -/
theorem parse_ok_record_good (lines : List String) (recs : List Record) (r : Record)
    (hp : parse_ntp_log lines = .ok recs) (hr : r ∈ recs) :
    r.status ≠ " " ∧ r.refid ≠ ".STEP." ∧ r.refid ≠ ".INIT." ∧ r.refid ≠ ".RATE." := by
  obtain ⟨raw, ct, hdec⟩ := parse_ok_records lines recs r hp hr
  obtain ⟨tok0, tok1, ts, hg0, hg1, hsent, -, hstat, -, hrefid⟩ :=
    decodeParts_ok _ ct r hdec
  have htok0 := pySplit_good _ tok0 (List.getElem?_mem hg0)
  constructor
  · rw [hstat]
    rcases tok0 with - | ⟨c, rest⟩
    · exact absurd rfl htok0.1
    · have hc : pyIsSpace c = false := htok0.2 c (by simp)
      have hc' : c ≠ ' ' := by
        intro hcc
        subst hcc
        simp [pyIsSpace] at hc
      by_cases hmem : c ∈ STATUS_CHARS
      · simp only [stripStatus, hmem, if_pos]
        intro hcon
        have := congrArg String.data hcon
        simp at this
        exact hc' this
      · simp only [stripStatus, hmem, if_neg, not_false_iff]
        intro hcon
        have := congrArg String.data hcon
        simp at this
  · refine ⟨?_, ?_, ?_⟩ <;>
    · rw [hrefid]
      intro hcon
      have := congrArg String.data hcon
      simp at this
      subst this
      simp [SENTINELS] at hsent

end NTPLog

namespace NTPLog

/-- A stripped line that does not begin with the fence character cannot
match the timestamp regex, which is anchored at the start. -/
theorem tsMatch_none (line : List Char) (h : "=".data.isPrefixOf line = false) :
    tsMatch line = none := by
  rcases line with - | ⟨c, t⟩
  · rfl
  · have hc : c ≠ '=' := by
      intro hcc
      subst hcc
      simp [List.isPrefixOf] at h
    unfold tsMatch
    split
    · next rest heq =>
      injection heq with h1 h2
      exact absurd h1 hc
    · rfl

/-- A line not starting with one fence character does not start with three
either. -/
theorem prefix3_false (line : List Char) (h : "=".data.isPrefixOf line = false) :
    "===".data.isPrefixOf line = false := by
  rcases line with - | ⟨c, t⟩
  · rfl
  · have hc : c ≠ '=' := by
      intro hcc
      subst hcc
      simp [List.isPrefixOf] at h
    simp [List.isPrefixOf]
    intro hcc
    exact absurd hcc.symm hc

/-- Computation of a successful decode: when the first ten tokens exist, the
second is not a sentinel, each numeric token coerces and the when token
normalizes, the decode returns exactly the row the source appends. -/
theorem decodeParts_eval (parts : List (List Char)) (ts : Timestamp)
    (tok0 tok1 tok2 tok3 tok4 tok5 tok6 tok7 tok8 tok9 : List Char)
    (st poll reach ws : Int) (delay offs jit : ℚ)
    (hg0 : parts[0]? = some tok0) (hg1 : parts[1]? = some tok1)
    (hg2 : parts[2]? = some tok2) (hg3 : parts[3]? = some tok3)
    (hg4 : parts[4]? = some tok4) (hg5 : parts[5]? = some tok5)
    (hg6 : parts[6]? = some tok6) (hg7 : parts[7]? = some tok7)
    (hg8 : parts[8]? = some tok8) (hg9 : parts[9]? = some tok9)
    (hsent : tok1 ∉ SENTINELS)
    (hst : pyParseInt tok2 = some st)
    (hpoll : pyParseInt tok5 = some poll)
    (hreach : pyParseInt tok6 = some reach)
    (hdelay : pyParseFloat tok7 = some delay)
    (hoffs : pyParseFloat tok8 = some offs)
    (hjit : pyParseFloat tok9 = some jit)
    (hws : whenNormalize tok4 = some ws) :
    decodeParts parts (some ts) = .ok
      { timestamp := ts.strftime
        timestamp_obj := ts
        status := ⟨(stripStatus tok0).1⟩
        remote := ⟨(stripStatus tok0).2⟩
        refid := ⟨tok1⟩
        stratum := st
        type := ⟨tok3⟩
        when_seconds := ws
        poll := poll
        reach := reach
        delay_ms := delay
        offset_ms := offs
        jitter_ms := jit } := by
  simp [decodeParts, hg0, hg1, hg2, hg3, hg4, hg5, hg6, hg7, hg8, hg9,
    pyParseIntOpt, pyParseFloatOpt, hst, hpoll, hreach, hdelay, hoffs, hjit,
    hws, hsent]

/-- A candidate line with no tenth token can only decode to sentinel or
failure (the IndexError on parts[9] is caught and the line skipped). -/
theorem decodeParts_no9 (parts : List (List Char)) (ct : Option Timestamp)
    (h9 : parts[9]? = none) :
    decodeParts parts ct = .sentinel ∨ decodeParts parts ct = .failure := by
  unfold decodeParts
  split
  · next tok0 tok1 hg0 hg1 =>
    split
    · exact Or.inl rfl
    · split
      · next st tok3 tok4 poll reach delay offs jit h2 h3 h4 h5 h6 h7 h8 h9' =>
        rw [h9] at h9'
        simp [pyParseFloatOpt] at h9'
      · exact Or.inr rfl
  · exact Or.inr rfl

/-- A candidate line whose second token is a sentinel decodes to sentinel. -/
theorem decodeParts_sentinel_of (parts : List (List Char)) (ct : Option Timestamp)
    (tok0 tok1 : List Char)
    (hg0 : parts[0]? = some tok0) (hg1 : parts[1]? = some tok1)
    (hs : tok1 ∈ SENTINELS) :
    decodeParts parts ct = .sentinel := by
  simp [decodeParts, hg0, hg1, hs]

end NTPLog

namespace NTPLog

/-- A line matching the timestamp regex with parseable interior updates
current_timestamp and appends nothing (it then satisfies the skip test). -/
theorem step_ts_update (raw : String) (ct : Option Timestamp) (recs : List Record)
    (interior : List Char) (ts : Timestamp)
    (hm : tsMatch (pyStrip raw.data) = some interior)
    (hp : parseTimestamp interior = some ts) :
    step (.running ct recs) raw = .running (some ts) recs := by
  simp [step, hm, hp]

/-- A line matching the timestamp regex with unparseable interior breaks the
loop, keeping the rows accumulated so far. -/
theorem step_ts_bad (raw : String) (ct : Option Timestamp) (recs : List Record)
    (interior : List Char)
    (hm : tsMatch (pyStrip raw.data) = some interior)
    (hp : parseTimestamp interior = none) :
    step (.running ct recs) raw = .stopped recs := by
  simp [step, hm, hp]

/-- A line not matching the timestamp regex leaves current_timestamp
unchanged: the state stays running with the same context (possibly with one
more row), unless the null-timestamp crash fires. -/
theorem step_no_ts_preserves (raw : String) (ct : Option Timestamp) (recs : List Record)
    (hm : tsMatch (pyStrip raw.data) = none) :
    (∃ recs2, step (.running ct recs) raw = .running ct recs2) ∨
      ∃ m, step (.running ct recs) raw = .crashed m := by
  simp only [step, hm]
  split
  · exact Or.inl ⟨recs, rfl⟩
  · split
    · exact Or.inl ⟨recs, rfl⟩
    · split
      · next r0 heq => exact Or.inl ⟨recs ++ [r0], rfl⟩
      · exact Or.inl ⟨recs, rfl⟩
      · exact Or.inl ⟨recs, rfl⟩
      · next m heq => exact Or.inr ⟨m, rfl⟩

/-- A non-fence line whose second token is a sentinel reference id leaves
the loop state entirely unchanged: no row, no abort, no context change. -/
theorem step_sentinel_line (raw : String) (ct : Option Timestamp) (recs : List Record)
    (tok1 : List Char)
    (heqp : "=".data.isPrefixOf (pyStrip raw.data) = false)
    (hg1 : (pySplit (pyStrip raw.data))[1]? = some tok1)
    (hs : tok1 ∈ SENTINELS) :
    step (.running ct recs) raw = .running ct recs := by
  have hts := tsMatch_none _ heqp
  simp only [step, hts]
  split
  · rfl
  · split
    · rfl
    · have h1lt : 1 < (pySplit (pyStrip raw.data)).length :=
        (List.getElem?_eq_some_iff.mp hg1).1
      have hg0 : (pySplit (pyStrip raw.data))[0]? =
          some ((pySplit (pyStrip raw.data)).get ⟨0, by omega⟩) := by
        rw [List.getElem?_eq_some_iff]
        exact ⟨by omega, rfl⟩
      rw [decodeParts_sentinel_of _ ct _ tok1 hg0 hg1 hs]

/-- Processing, in a state with a current timestamp, of a candidate data
line whose ten tokens all coerce appends exactly the row the source builds
from those tokens. -/
theorem step_appends (raw : String) (ts : Timestamp) (recs : List Record)
    (tok0 tok1 tok2 tok3 tok4 tok5 tok6 tok7 tok8 tok9 : List Char)
    (st poll reach ws : Int) (delay offs jit : ℚ)
    (hg0 : (pySplit (pyStrip raw.data))[0]? = some tok0)
    (hg1 : (pySplit (pyStrip raw.data))[1]? = some tok1)
    (hg2 : (pySplit (pyStrip raw.data))[2]? = some tok2)
    (hg3 : (pySplit (pyStrip raw.data))[3]? = some tok3)
    (hg4 : (pySplit (pyStrip raw.data))[4]? = some tok4)
    (hg5 : (pySplit (pyStrip raw.data))[5]? = some tok5)
    (hg6 : (pySplit (pyStrip raw.data))[6]? = some tok6)
    (hg7 : (pySplit (pyStrip raw.data))[7]? = some tok7)
    (hg8 : (pySplit (pyStrip raw.data))[8]? = some tok8)
    (hg9 : (pySplit (pyStrip raw.data))[9]? = some tok9)
    (hrem : "remote".data.isPrefixOf (pyStrip raw.data) = false)
    (heqp : "=".data.isPrefixOf (pyStrip raw.data) = false)
    (hsent : tok1 ∉ SENTINELS)
    (hst : pyParseInt tok2 = some st)
    (hpoll : pyParseInt tok5 = some poll)
    (hreach : pyParseInt tok6 = some reach)
    (hdelay : pyParseFloat tok7 = some delay)
    (hoffs : pyParseFloat tok8 = some offs)
    (hjit : pyParseFloat tok9 = some jit)
    (hws : whenNormalize tok4 = some ws) :
    step (.running (some ts) recs) raw = .running (some ts) (recs ++
      [{ timestamp := ts.strftime
         timestamp_obj := ts
         status := ⟨(stripStatus tok0).1⟩
         remote := ⟨(stripStatus tok0).2⟩
         refid := ⟨tok1⟩
         stratum := st
         type := ⟨tok3⟩
         when_seconds := ws
         poll := poll
         reach := reach
         delay_ms := delay
         offset_ms := offs
         jitter_ms := jit }]) := by
  have hts := tsMatch_none _ heqp
  have hpre3 := prefix3_false _ heqp
  have hne : pyStrip raw.data ≠ [] := by
    intro h0
    rw [h0] at hg0
    simp [pySplit, pySplitAux] at hg0
  have hlen : ¬ (pySplit (pyStrip raw.data)).length < 9 := by
    rcases List.getElem?_eq_some_iff.mp hg9 with ⟨h9, -⟩
    omega
  have hdec := decodeParts_eval (pySplit (pyStrip raw.data)) ts
    tok0 tok1 tok2 tok3 tok4 tok5 tok6 tok7 tok8 tok9 st poll reach ws
    delay offs jit hg0 hg1 hg2 hg3 hg4 hg5 hg6 hg7 hg8 hg9 hsent hst hpoll
    hreach hdelay hoffs hjit hws
  have hcond : ¬(pyStrip raw.data = [] ∨
      "remote".data.isPrefixOf (pyStrip raw.data) = true ∨
      "===".data.isPrefixOf (pyStrip raw.data) = true ∨
      "=".data.isPrefixOf (pyStrip raw.data) = true) := by
    simp [hne, hrem, hpre3, heqp]
  simp only [step, hts]
  rw [if_neg hcond, if_neg hlen, hdec]

/-- Processing of a line with fewer than ten whitespace tokens never appends
a row: the state keeps its row list (a timestamp header may still update the
context or break the loop). -/
theorem step_short_line (raw : String) (ct : Option Timestamp) (recs : List Record)
    (h : (pySplit (pyStrip raw.data)).length < 10) :
    (∃ ct2, step (.running ct recs) raw = .running ct2 recs) ∨
      step (.running ct recs) raw = .stopped recs := by
  simp only [step]
  split
  · split
    · next ts _ => exact Or.inl ⟨some ts, rfl⟩
    · exact Or.inr rfl
  · split
    · exact Or.inl ⟨ct, rfl⟩
    · split
      · exact Or.inl ⟨ct, rfl⟩
      · have hg9 : (pySplit (pyStrip raw.data))[9]? = none := by
          rw [List.getElem?_eq_none_iff]
          omega
        split
        · next r0 heq =>
          rcases decodeParts_no9 _ ct hg9 with h2 | h2 <;>
            (rw [heq] at h2; simp at h2)
        · exact Or.inl ⟨ct, rfl⟩
        · exact Or.inl ⟨ct, rfl⟩
        · next m heq =>
          rcases decodeParts_no9 _ ct hg9 with h2 | h2 <;>
            (rw [heq] at h2; simp at h2)

end NTPLog

namespace NTPLog

/-- uniqueAux preserves freedom from duplicates. -/
theorem uniqueAux_nodup (l : List String) :
    ∀ acc : List String, acc.Nodup → (uniqueAux l acc).Nodup := by
  induction l with
  | nil => intro acc h; exact h
  | cons s t ih =>
    intro acc h
    unfold uniqueAux
    by_cases hs : s ∈ acc
    · simpa [hs] using ih acc h
    · have : (acc ++ [s]).Nodup := by
        simp [List.nodup_append, h, hs]
      simpa [hs] using ih (acc ++ [s]) this

/-- Membership in uniqueAux is membership in the accumulator or the list. -/
theorem uniqueAux_mem (l : List String) :
    ∀ (acc : List String) (x : String), x ∈ uniqueAux l acc ↔ x ∈ acc ∨ x ∈ l := by
  induction l with
  | nil => intro acc x; simp [uniqueAux]
  | cons s t ih =>
    intro acc x
    unfold uniqueAux
    by_cases hs : s ∈ acc
    · rw [if_pos hs, ih acc x]
      constructor
      · rintro (h | h)
        · exact Or.inl h
        · exact Or.inr (List.mem_cons_of_mem s h)
      · rintro (h | h)
        · exact Or.inl h
        · rcases List.mem_cons.mp h with rfl | h
          · exact Or.inl hs
          · exact Or.inr h
    · rw [if_neg hs, ih (acc ++ [s]) x]
      simp [List.mem_append, List.mem_cons]
      tauto

/-- Dict keys carry no duplicates. -/
theorem uniqueKeys_nodup (l : List String) : (uniqueKeys l).Nodup :=
  uniqueAux_nodup l [] List.nodup_nil

/-- Dict keys are exactly the values inserted. -/
theorem mem_uniqueKeys (l : List String) (x : String) : x ∈ uniqueKeys l ↔ x ∈ l := by
  rw [uniqueKeys, uniqueAux_mem]
  simp

end NTPLog

namespace NTPLog

/-- C2: a fully valid ten-token data line processed before any timestamp
header crashes parse_ntp_log with an uncaught AttributeError (the
None-valued current_timestamp is formatted at append time), so the caller
receives an exception instead of the accumulated rows. -/
theorem claim_C2_crash_on_unheaded_data :
    parse_ntp_log [goodLine] =
      .error "AttributeError: NoneType object has no attribute strftime" := by
  with_unfolding_all rfl

/-- C4: a timestamp-header line whose interior does not parse stops the run
at that line: the result is exactly the rows accumulated before it, and no
later line contributes. -/
theorem claim_C4_bad_header_stops (pre post : List String) (bad : String)
    (interior : List Char) (ct : Option Timestamp) (recs : List Record)
    (hpre : List.foldl step (PState.running none []) pre = PState.running ct recs)
    (hm : tsMatch (pyStrip bad.data) = some interior)
    (hbad : parseTimestamp interior = none) :
    parse_ntp_log (pre ++ bad :: post) = .ok recs := by
  unfold parse_ntp_log runParser
  rw [List.foldl_append, hpre, List.foldl_cons,
    step_ts_bad bad ct recs interior hm hbad, foldl_step_stopped]

/-- C4 witness: one good row, then an unparseable header, then another good
line: exactly the first row is returned. -/
theorem claim_C4_witness :
    parse_ntp_log [hdrLine, goodLine, badHdrLine, goodLine] = .ok [goodRecord] :=
  claim_C4_bad_header_stops [hdrLine, goodLine] [goodLine] badHdrLine
    "not a timestamp".data (some ts0) [goodRecord]
    (by with_unfolding_all rfl) (by decide) (by decide)

/-- C5: a line with fewer than ten whitespace tokens never appends a row:
the loop state keeps its row list unchanged (the line may still update the
timestamp context or break the loop if it is a header). -/
theorem claim_C5_short_line_no_record (raw : String) (ct : Option Timestamp)
    (recs : List Record)
    (h : (pySplit (pyStrip raw.data)).length < 10) :
    (∃ ct2, step (.running ct recs) raw = .running ct2 recs) ∨
      step (.running ct recs) raw = .stopped recs :=
  step_short_line raw ct recs h

/-- C5 witness: a nine-token line (rejected via the missing parts[9]) adds
no row. -/
theorem claim_C5_witness :
    (pySplit (pyStrip nineTokLine.data)).length < 10 ∧
    ((∃ ct2, step (.running (some ts0) []) nineTokLine = .running ct2 []) ∨
      step (.running (some ts0) []) nineTokLine = .stopped []) :=
  ⟨by decide, claim_C5_short_line_no_record nineTokLine (some ts0) [] (by decide)⟩

/-- C10: the space character is listed among the recognized status symbols,
yet no returned row ever carries it as status, because whitespace
tokenization cannot produce a token starting with a space. -/
theorem claim_C10_status_never_space :
    (' ' ∈ STATUS_CHARS) ∧
    ∀ (lines : List String) (recs : List Record), parse_ntp_log lines = .ok recs →
      ∀ r ∈ recs, r.status ≠ " " := by
  refine ⟨by decide, ?_⟩
  intro lines recs hp r hr
  exact (parse_ok_record_good lines recs r hp hr).1

/-- C10 witness: the row of a selected peer has status * and in particular
not space. -/
theorem claim_C10_witness : goodRecord.status ≠ " " :=
  claim_C10_status_never_space.2 [hdrLine, goodLine] [goodRecord]
    (by with_unfolding_all rfl) goodRecord (by simp)

end NTPLog

namespace NTPLog

/-- C6 (amended): a line that is not fence-initial and whose second token is
a sentinel reference id leaves the state unchanged (no row, no abort); and
no returned row ever carries a sentinel reference id.  The amendment
excludes fence-initial lines: a fence-wrapped sentinel such as
"=== .STEP. ===" is treated as a timestamp header and aborts the run (see
the counterexample). -/
theorem claim_C6_amended :
    (∀ (raw : String) (ct : Option Timestamp) (recs : List Record) (tok1 : List Char),
      "=".data.isPrefixOf (pyStrip raw.data) = false →
      (pySplit (pyStrip raw.data))[1]? = some tok1 →
      tok1 ∈ SENTINELS →
      step (.running ct recs) raw = .running ct recs) ∧
    (∀ (lines : List String) (recs : List Record), parse_ntp_log lines = .ok recs →
      ∀ r ∈ recs, r.refid ≠ ".STEP." ∧ r.refid ≠ ".INIT." ∧ r.refid ≠ ".RATE.") := by
  constructor
  · intro raw ct recs tok1 h1 h2 h3
    exact step_sentinel_line raw ct recs tok1 h1 h2 h3
  · intro lines recs hp r hr
    exact (parse_ok_record_good lines recs r hp hr).2

/-- C6 counterexample: the line "=== .STEP. ===" has second token .STEP.
but aborts the run: the later header and valid data line contribute
nothing, while the same suffix alone produces one row. -/
theorem claim_C6_counterexample :
    (pySplit (pyStrip stepFenceLine.data))[1]? = some ".STEP.".data ∧
    parse_ntp_log [stepFenceLine, hdrLine, goodLine] = .ok [] ∧
    parse_ntp_log [hdrLine, goodLine] = .ok [goodRecord] :=
  ⟨by decide, by with_unfolding_all rfl, by with_unfolding_all rfl⟩

/-- C6 witness: a data-shaped sentinel line leaves the state untouched. -/
theorem claim_C6_amended_witness :
    step (.running (some ts0) []) sentinelLine = .running (some ts0) [] :=
  claim_C6_amended.1 sentinelLine (some ts0) [] ".STEP.".data
    (by decide) (by decide) (by decide)

/-- C8 (amended): the timestamp context is updated exactly by the lines the
start-anchored regex accepts: a line beginning with the fence "=== " whose
lazily matched interior (up to the first following " ===") parses as a
date-time; trailing text after that closing fence is permitted because the
regex has no end anchor.  Non-matching lines never change the context;
matching lines with unparseable interior stop the run. -/
theorem claim_C8_amended (raw : String) (ct : Option Timestamp) (recs : List Record) :
    (∀ (interior : List Char) (ts : Timestamp),
      tsMatch (pyStrip raw.data) = some interior →
      parseTimestamp interior = some ts →
      step (.running ct recs) raw = .running (some ts) recs) ∧
    (∀ interior : List Char,
      tsMatch (pyStrip raw.data) = some interior →
      parseTimestamp interior = none →
      step (.running ct recs) raw = .stopped recs) ∧
    (tsMatch (pyStrip raw.data) = none →
      (∃ recs2, step (.running ct recs) raw = .running ct recs2) ∨
        ∃ m, step (.running ct recs) raw = .crashed m) :=
  ⟨fun i ts hm hp => step_ts_update raw ct recs i ts hm hp,
   fun i hm hp => step_ts_bad raw ct recs i hm hp,
   fun hm => step_no_ts_preserves raw ct recs hm⟩

/-- C8 counterexample: a line with trailing text after the closing fence is
not fully wrapped, yet it matches the start-anchored regex and updates the
timestamp context, as the produced row's timestamp shows. -/
theorem claim_C8_counterexample :
    tsMatch (pyStrip trailingHdrLine.data) = some "2024-06-01 12:00:00 UTC".data ∧
    parse_ntp_log [trailingHdrLine, goodLine] = .ok [goodRecord] :=
  ⟨by decide, by with_unfolding_all rfl⟩

/-- C8 witness: the plain header line updates the context to its parsed
timestamp. -/
theorem claim_C8_amended_witness :
    step (.running none []) hdrLine = .running (some ts0) [] :=
  (claim_C8_amended hdrLine none []).1 "2024-06-01 12:00:00 UTC".data ts0
    (by decide) (by decide)

end NTPLog

namespace NTPLog

/-- C7 (amended): a decoded row's remote is the first token with at most one
leading status symbol stripped; whenever that token is not a lone status
symbol and does not start with two status symbols, the remote is non-empty
and does not begin with a status symbol.  The unconditional claim fails: a
first token consisting of exactly one status symbol yields an empty remote
(see the counterexample). -/
theorem claim_C7_amended (parts : List (List Char)) (ct : Option Timestamp)
    (r : Record) (tok0 : List Char)
    (hdec : decodeParts parts ct = .ok r)
    (hg0 : parts[0]? = some tok0)
    (hsafe : tokenSafe tok0 = true) :
    r.remote.data = (stripStatus tok0).2 ∧
    r.remote ≠ "" ∧ ∀ c, r.remote.data.head? = some c → c ∉ STATUS_CHARS := by
  obtain ⟨tok0', tok1, ts, hg0', hg1, hsent, hct, hstat, hrem, hrefid⟩ :=
    decodeParts_ok parts ct r hdec
  rw [hg0] at hg0'
  injection hg0' with he
  subst he
  rw [hrem]
  refine ⟨rfl, ?_⟩
  rcases tok0 with - | ⟨c1, rest⟩
  · simp [tokenSafe] at hsafe
  · rcases rest with - | ⟨c2, rest2⟩
    · simp [tokenSafe] at hsafe
      simp only [stripStatus, hsafe, if_neg, not_false_iff]
      constructor
      · intro hcon
        have := congrArg String.data hcon
        simp at this
      · intro c hc
        simp at hc
        subst hc
        exact hsafe
    · by_cases h1 : c1 ∈ STATUS_CHARS
      · have h2 : c2 ∉ STATUS_CHARS := by
          simp [tokenSafe, h1] at hsafe
          exact hsafe
        simp only [stripStatus, h1, if_pos]
        constructor
        · intro hcon
          have := congrArg String.data hcon
          simp at this
        · intro c hc
          simp at hc
          subst hc
          exact h2
      · simp only [stripStatus, h1, if_neg, not_false_iff]
        constructor
        · intro hcon
          have := congrArg String.data hcon
          simp at this
        · intro c hc
          simp at hc
          subst hc
          exact h1

/-- C7 counterexample: a line whose first token is a lone star produces a
row whose remote is the empty string. -/
theorem claim_C7_counterexample :
    parse_ntp_log [hdrLine, starLine] = .ok [starRecord] ∧ starRecord.remote = "" :=
  ⟨by with_unfolding_all rfl, rfl⟩

/-- C7 witness: the decode of goodLine's tokens yields a non-empty remote
not starting with a status symbol. -/
theorem claim_C7_amended_witness :
    goodRecord.remote.data = (stripStatus "*140.203.204.77".data).2 ∧
    goodRecord.remote ≠ "" ∧
    ∀ c, goodRecord.remote.data.head? = some c → c ∉ STATUS_CHARS :=
  claim_C7_amended (pySplit (pyStrip goodLine.data)) (some ts0) goodRecord
    "*140.203.204.77".data (by with_unfolding_all rfl) (by decide) (by decide)

end NTPLog

namespace NTPLog

/-- C1 (amended): in a state with a current timestamp, a line that the
classifier does not skip (not fence-initial, not remote-initial), whose ten
tokens exist, whose reference id is not a sentinel, whose numeric fields
coerce and whose duration token normalizes, appends exactly one row whose
fields are the coerced tokens with the status prefix stripped from token 0.
The amendment adds the non-skip, non-sentinel and duration-normalization
conditions, without which the unamended claim fails (see the
counterexample). -/
theorem claim_C1_amended (raw : String) (ts : Timestamp) (recs : List Record)
    (tok0 tok1 tok2 tok3 tok4 tok5 tok6 tok7 tok8 tok9 : List Char)
    (st poll reach ws : Int) (delay offs jit : ℚ)
    (hg0 : (pySplit (pyStrip raw.data))[0]? = some tok0)
    (hg1 : (pySplit (pyStrip raw.data))[1]? = some tok1)
    (hg2 : (pySplit (pyStrip raw.data))[2]? = some tok2)
    (hg3 : (pySplit (pyStrip raw.data))[3]? = some tok3)
    (hg4 : (pySplit (pyStrip raw.data))[4]? = some tok4)
    (hg5 : (pySplit (pyStrip raw.data))[5]? = some tok5)
    (hg6 : (pySplit (pyStrip raw.data))[6]? = some tok6)
    (hg7 : (pySplit (pyStrip raw.data))[7]? = some tok7)
    (hg8 : (pySplit (pyStrip raw.data))[8]? = some tok8)
    (hg9 : (pySplit (pyStrip raw.data))[9]? = some tok9)
    (hrem : "remote".data.isPrefixOf (pyStrip raw.data) = false)
    (heqp : "=".data.isPrefixOf (pyStrip raw.data) = false)
    (hsent : tok1 ∉ SENTINELS)
    (hst : pyParseInt tok2 = some st)
    (hpoll : pyParseInt tok5 = some poll)
    (hreach : pyParseInt tok6 = some reach)
    (hdelay : pyParseFloat tok7 = some delay)
    (hoffs : pyParseFloat tok8 = some offs)
    (hjit : pyParseFloat tok9 = some jit)
    (hws : whenNormalize tok4 = some ws) :
    step (.running (some ts) recs) raw = .running (some ts) (recs ++
      [{ timestamp := ts.strftime
         timestamp_obj := ts
         status := ⟨(stripStatus tok0).1⟩
         remote := ⟨(stripStatus tok0).2⟩
         refid := ⟨tok1⟩
         stratum := st
         type := ⟨tok3⟩
         when_seconds := ws
         poll := poll
         reach := reach
         delay_ms := delay
         offset_ms := offs
         jitter_ms := jit }]) :=
  step_appends raw ts recs tok0 tok1 tok2 tok3 tok4 tok5 tok6 tok7 tok8 tok9
    st poll reach ws delay offs jit hg0 hg1 hg2 hg3 hg4 hg5 hg6 hg7 hg8 hg9
    hrem heqp hsent hst hpoll hreach hdelay hoffs hjit hws

/-- C1 counterexample: a ten-token line processed after a valid timestamp
header, all of whose numeric fields coerce, for which no row is appended:
its reference id is the sentinel .STEP. -/
theorem claim_C1_counterexample :
    (pySplit (pyStrip sentinelLine.data)).length = 10 ∧
    pyParseIntOpt ((pySplit (pyStrip sentinelLine.data))[2]?) = some 2 ∧
    pyParseIntOpt ((pySplit (pyStrip sentinelLine.data))[5]?) = some 64 ∧
    pyParseIntOpt ((pySplit (pyStrip sentinelLine.data))[6]?) = some 377 ∧
    pyParseFloatOpt ((pySplit (pyStrip sentinelLine.data))[7]?) = some 1 ∧
    pyParseFloatOpt ((pySplit (pyStrip sentinelLine.data))[8]?) = some 2 ∧
    pyParseFloatOpt ((pySplit (pyStrip sentinelLine.data))[9]?) = some 3 ∧
    tsMatch (pyStrip hdrLine.data) = some "2024-06-01 12:00:00 UTC".data ∧
    parseTimestamp "2024-06-01 12:00:00 UTC".data = some ts0 ∧
    parse_ntp_log [hdrLine, sentinelLine] = .ok [] :=
  ⟨by decide, by with_unfolding_all rfl, by with_unfolding_all rfl,
   by with_unfolding_all rfl, by with_unfolding_all rfl, by with_unfolding_all rfl,
   by with_unfolding_all rfl, by decide, by decide, by with_unfolding_all rfl⟩

/-- C1 witness: goodLine in a timestamped state appends exactly its row. -/
theorem claim_C1_amended_witness :
    step (.running (some ts0) []) goodLine = .running (some ts0) [goodRecord] := by
  have h := claim_C1_amended goodLine ts0 []
    "*140.203.204.77".data "1.2.3.4".data "2".data "u".data "5".data
    "64".data "377".data "12.345".data "-0.067".data "1.234".data
    2 64 377 5 (2469 / 200) (-67 / 1000) (617 / 500)
    (by decide) (by decide) (by decide) (by decide) (by decide)
    (by decide) (by decide) (by decide) (by decide) (by decide)
    (by decide) (by decide) (by decide)
    (by with_unfolding_all rfl) (by with_unfolding_all rfl)
    (by with_unfolding_all rfl) (by with_unfolding_all rfl)
    (by with_unfolding_all rfl) (by with_unfolding_all rfl)
    (by with_unfolding_all rfl)
  exact h

end NTPLog

namespace NTPLog

/-- C3 (amended): the zero fallback for the duration field applies exactly
to tokens containing no unit letter: if token 4 contains neither m nor h and
fails integer parsing, when_seconds degrades to 0 and the row is still
appended.  A token containing a unit letter with a non-numeric remainder
(such as abcm) instead raises a ValueError caught by the outer handler,
dropping the whole line (see the counterexample). -/
theorem claim_C3_amended (raw : String) (ts : Timestamp) (recs : List Record)
    (tok0 tok1 tok2 tok3 tok4 tok5 tok6 tok7 tok8 tok9 : List Char)
    (st poll reach : Int) (delay offs jit : ℚ)
    (hg0 : (pySplit (pyStrip raw.data))[0]? = some tok0)
    (hg1 : (pySplit (pyStrip raw.data))[1]? = some tok1)
    (hg2 : (pySplit (pyStrip raw.data))[2]? = some tok2)
    (hg3 : (pySplit (pyStrip raw.data))[3]? = some tok3)
    (hg4 : (pySplit (pyStrip raw.data))[4]? = some tok4)
    (hg5 : (pySplit (pyStrip raw.data))[5]? = some tok5)
    (hg6 : (pySplit (pyStrip raw.data))[6]? = some tok6)
    (hg7 : (pySplit (pyStrip raw.data))[7]? = some tok7)
    (hg8 : (pySplit (pyStrip raw.data))[8]? = some tok8)
    (hg9 : (pySplit (pyStrip raw.data))[9]? = some tok9)
    (hrem : "remote".data.isPrefixOf (pyStrip raw.data) = false)
    (heqp : "=".data.isPrefixOf (pyStrip raw.data) = false)
    (hsent : tok1 ∉ SENTINELS)
    (hst : pyParseInt tok2 = some st)
    (hpoll : pyParseInt tok5 = some poll)
    (hreach : pyParseInt tok6 = some reach)
    (hdelay : pyParseFloat tok7 = some delay)
    (hoffs : pyParseFloat tok8 = some offs)
    (hjit : pyParseFloat tok9 = some jit)
    (h4m : 'm' ∉ tok4)
    (h4h : 'h' ∉ tok4)
    (h4p : pyParseInt tok4 = none) :
    step (.running (some ts) recs) raw = .running (some ts) (recs ++
      [{ timestamp := ts.strftime
         timestamp_obj := ts
         status := ⟨(stripStatus tok0).1⟩
         remote := ⟨(stripStatus tok0).2⟩
         refid := ⟨tok1⟩
         stratum := st
         type := ⟨tok3⟩
         when_seconds := 0
         poll := poll
         reach := reach
         delay_ms := delay
         offset_ms := offs
         jitter_ms := jit }]) := by
  have hws : whenNormalize tok4 = some 0 := by
    by_cases hdash : tok4 = "-".data
    · simp [whenNormalize, hdash]
    · simp [whenNormalize, hdash, h4m, h4h, h4p]
  exact step_appends raw ts recs tok0 tok1 tok2 tok3 tok4 tok5 tok6 tok7 tok8
    tok9 st poll reach 0 delay offs jit hg0 hg1 hg2 hg3 hg4 hg5 hg6 hg7 hg8
    hg9 hrem heqp hsent hst hpoll hreach hdelay hoffs hjit hws

/-- C3 counterexample: the line with duration token abcm, every other field
coercing, is dropped entirely: no row is produced, contrary to the claimed
degrade-to-zero fallback. -/
theorem claim_C3_counterexample :
    (pySplit (pyStrip abcmLine.data))[4]? = some "abcm".data ∧
    whenNormalize "abcm".data = none ∧
    pyParseIntOpt ((pySplit (pyStrip abcmLine.data))[2]?) = some 2 ∧
    pyParseIntOpt ((pySplit (pyStrip abcmLine.data))[5]?) = some 64 ∧
    pyParseIntOpt ((pySplit (pyStrip abcmLine.data))[6]?) = some 377 ∧
    pyParseFloatOpt ((pySplit (pyStrip abcmLine.data))[7]?) = some 1 ∧
    pyParseFloatOpt ((pySplit (pyStrip abcmLine.data))[8]?) = some 2 ∧
    pyParseFloatOpt ((pySplit (pyStrip abcmLine.data))[9]?) = some 3 ∧
    parse_ntp_log [hdrLine, abcmLine] = .ok [] :=
  ⟨by decide, by decide, by with_unfolding_all rfl, by with_unfolding_all rfl,
   by with_unfolding_all rfl, by with_unfolding_all rfl, by with_unfolding_all rfl,
   by with_unfolding_all rfl, by with_unfolding_all rfl⟩

/-- C3 witness: the line with unit-letter-free non-numeric duration token
abc is kept, with when_seconds 0. -/
theorem claim_C3_amended_witness :
    step (.running (some ts0) []) abcLine = .running (some ts0) [abcRecord] := by
  have h := claim_C3_amended abcLine ts0 []
    "*140.203.204.77".data "1.2.3.4".data "2".data "u".data "abc".data
    "64".data "377".data "1.0".data "2.0".data "3.0".data
    2 64 377 1 2 3
    (by decide) (by decide) (by decide) (by decide) (by decide)
    (by decide) (by decide) (by decide) (by decide) (by decide)
    (by decide) (by decide) (by decide)
    (by with_unfolding_all rfl) (by with_unfolding_all rfl)
    (by with_unfolding_all rfl) (by with_unfolding_all rfl)
    (by with_unfolding_all rfl) (by with_unfolding_all rfl)
    (by decide) (by decide) (by decide)
  exact h

end NTPLog

namespace NTPLog

theorem calculate_statistics_raises (rows : List Record) (h : rows ≠ []) :
    calculate_statistics rows = .error "ValueError: Invalid format specifier" := by
  obtain ⟨r, rest, rfl⟩ := List.exists_cons_of_ne_nil h
  have hmem : r.remote ∈ sortStrings (serverKeys (r :: rest)) := by
    rw [show sortStrings (serverKeys (r :: rest)) =
      List.insertionSort (· ≤ ·) (serverKeys (r :: rest)) from rfl]
    rw [(List.perm_insertionSort _ _).mem_iff]
    rw [show serverKeys (r :: rest) =
      uniqueKeys ((r :: rest).map (fun x => x.remote)) from rfl]
    rw [mem_uniqueKeys]
    simp
  rcases hk : sortStrings (serverKeys (r :: rest)) with - | ⟨s, keys⟩
  · rw [hk] at hmem
    simp at hmem
  · unfold calculate_statistics
    rw [hk]
    rfl

/-- C9: the statistics claim is right about the intended computation but the
code crashes first: the jitter StdDev print's format spec ".¢4f" (source
line 274, stray U+00A2) is invalid, so the per-server print block raises
ValueError before the first stats row is ever appended, and
calculate_statistics raises for every non-empty input instead of returning
rows (empty input returns the empty list).  The stats the loop computes
before crashing are the claimed ones: the scenario peer with delays
10, 20, 30 gets Min 10, Max 30, Mean 20 and squared sample deviation 100,
whose square root is the claimed StdDev 10. -/
theorem claim_C9_format_crash :
    (∀ rows : List Record, rows ≠ [] →
      calculate_statistics rows = .error "ValueError: Invalid format specifier") ∧
    calculate_statistics ([] : List Record) = .ok [] ∧
    pyFloatFormatOk ".4f".data = true ∧
    pyFloatFormatOk ".¢4f".data = false ∧
    STAT_PRINT_SPECS.getLast? = some ".¢4f" ∧
    (mkStatsRow demoRows "a").Delay_Min = 10 ∧
    (mkStatsRow demoRows "a").Delay_Max = 30 ∧
    (mkStatsRow demoRows "a").Delay_Mean = 20 ∧
    (mkStatsRow demoRows "a").Delay_StdDevSq = 100 ∧
    Real.sqrt ((100 : ℚ) : ℝ) = 10 := by
  refine ⟨calculate_statistics_raises, rfl, by decide, by decide, by decide,
    by with_unfolding_all rfl, by with_unfolding_all rfl,
    by with_unfolding_all rfl, by with_unfolding_all rfl, ?_⟩
  rw [show ((100 : ℚ) : ℝ) = 10 ^ 2 by norm_num]
  exact Real.sqrt_sq (by norm_num)

/-- C9 witness: the two-peer scenario input makes calculate_statistics raise
the format-spec ValueError. -/
theorem claim_C9_format_crash_witness :
    calculate_statistics demoRows = .error "ValueError: Invalid format specifier" :=
  claim_C9_format_crash.1 demoRows (by decide)

end NTPLog
